import Mathlib

/-
Verification of the forkpost scheduling/publishing core.

Shallow embedding of the relevant parts of src/post.py (SocialMediaPoster)
and src/main.py (the scheduling API endpoints and the due-post sweep).

Modelling conventions:
- Timestamps are instants, modelled as Int (the code stores CST-normalized
  ISO strings and compares them; a single linear time axis captures this).
- The sqlite posts table is a List Post; WHERE id = ? updates map over
  every row with a matching id, and SELECT ... WHERE id = ? takes the
  first match, exactly as the SQL does.
- A platform client call either raises (modelled as Except.error) or
  returns a value from which an optional external id is extracted
  (Except.ok (some id) or Except.ok none).
- Python dicts passed around by the code are association lists of
  String keys; dict.get k default is dictGet.
-/

set_option autoImplicit false

namespace Forkpost

/-- The four social platforms targeted by the fan-out in post.py. -/
inductive Platform where
  | twitter
  | instagram
  | facebook
  | pinterest
deriving DecidableEq, Repr

/-- The fixed order in which SocialMediaPoster.post_to_platforms checks the
four platform flags (the four sequential if-blocks in post.py). -/
def platformOrder : List Platform :=
  [Platform.twitter, Platform.instagram, Platform.facebook, Platform.pinterest]

/-- The key looked up by post_to_platforms in its platforms dict for each
platform (post.py lines 451-456). -/
def flagKey : Platform → String
  | Platform.twitter => "publish_to_twitter"
  | Platform.instagram => "publish_to_instagram"
  | Platform.facebook => "publish_to_facebook"
  | Platform.pinterest => "publish_to_pinterest"

/-- The key under which post_to_platforms records each platform result
(post.py lines 465, 477, 489, 502). -/
def resultKey : Platform → String
  | Platform.twitter => "twitter_post_id"
  | Platform.instagram => "instagram_post_id"
  | Platform.facebook => "facebook_post_id"
  | Platform.pinterest => "pinterest_post_id"

/-- A family of platform clients: given the platform and the
(content, image_url) pair, either raise (error message) or return an
optional external post id. -/
def Clients : Type :=
  Platform → Option String → Option String → Except String (Option String)

/-- Python dict.get with a default, over an association list. -/
def dictGet (d : List (String × Bool)) (k : String) (dflt : Bool) : Bool :=
  match d.find? (fun kv => kv.1 == k) with
  | some kv => kv.2
  | none => dflt

/-- The flag computed by the remapping at the top of post_to_platforms:
bool(platforms.get("publish_to_...", False)). -/
def flagOf (platformsArg : List (String × Bool)) (p : Platform) : Bool :=
  dictGet platformsArg (flagKey p) false

/-- The id recorded for one invoked platform: the extracted id on success,
None when the client raised (the per-platform try/except in post.py). -/
def clientValue (clients : Clients) (content image_url : Option String)
    (p : Platform) : Option String :=
  match clients p content image_url with
  | Except.ok v => v
  | Except.error _ => none

/-- SocialMediaPoster.post_to_platforms (post.py lines 447-507).
Returns the list of platform clients actually invoked (in order) and the
results dict (insertion-ordered association list). -/
def post_to_platforms (clients : Clients) (content image_url : Option String)
    (platformsArg : List (String × Bool)) :
    List Platform × List (String × Option String) :=
  let go := fun (acc : List Platform × List (String × Option String)) (p : Platform) =>
    if flagOf platformsArg p then
      (acc.1 ++ [p], acc.2 ++ [(resultKey p, clientValue clients content image_url p)])
    else acc
  go (go (go (go ([], []) Platform.twitter) Platform.instagram) Platform.facebook)
    Platform.pinterest

/-- Python dict.get(key) on the results dict: None when the key is absent. -/
def resultsGet (results : List (String × Option String)) (k : String) : Option String :=
  match results.find? (fun kv => kv.1 == k) with
  | some kv => kv.2
  | none => none

/--
The posts table row (src/main.py init_db schema).
-/
structure Post where
  id : Nat
  content : Option String
  image_url : Option String
  scheduled_time : Option Int
  is_published : Bool
  is_canceled : Bool
  is_draft : Bool
  created_at : Int
  updated_at : Int
  engagement_score : Int
  publish_to_twitter : Bool
  publish_to_instagram : Bool
  publish_to_facebook : Bool
  publish_to_pinterest : Bool
  twitter_post_id : Option String
  instagram_post_id : Option String
  facebook_post_id : Option String
  pinterest_post_id : Option String
deriving DecidableEq, Repr

/-- The posts table. -/
abbrev Store : Type := List Post

/-- An HTTP error response (FastAPI HTTPException). -/
structure HTTPError where
  status : Nat
  detail : String
deriving DecidableEq, Repr

/-- SQL UPDATE ... WHERE id = ?: rewrite every row whose id matches. -/
def updateById (store : Store) (pid : Nat) (f : Post → Post) : Store :=
  List.map (fun q => if q.id = pid then f q else q) store

/-- SELECT * FROM posts WHERE id = ? followed by fetchone(). -/
def findPost (store : Store) (pid : Nat) : Option Post :=
  List.find? (fun q => q.id == pid) store

/-- The platforms dict constructed by both callers of post_to_platforms
(main.py lines 345-350 and 669-674): keyed by the plain platform names. -/
def mkPlatformsArg (p : Post) : List (String × Bool) :=
  [("twitter", p.publish_to_twitter),
   ("instagram", p.publish_to_instagram),
   ("facebook", p.publish_to_facebook),
   ("pinterest", p.publish_to_pinterest)]

/-- The write-back performed by both publish paths after the fan-out
(main.py lines 359-374 and 683-698): set is_published and copy the four
per-platform ids out of the results dict. -/
def markPublished (now : Int) (results : List (String × Option String)) (q : Post) : Post :=
  { q with
    is_published := true
    updated_at := now
    twitter_post_id := resultsGet results "twitter_post_id"
    instagram_post_id := resultsGet results "instagram_post_id"
    facebook_post_id := resultsGet results "facebook_post_id"
    pinterest_post_id := resultsGet results "pinterest_post_id" }

/-- The fan-out plus write-back sequence shared by the tail of publish_post
(main.py lines 344-377): invoke post_to_platforms with the plain-keyed
platforms dict built from the row read at the start, then mark the row
published with the extracted ids.  Returns the endpoint outcome (new store
and results dict) together with the list of platform clients invoked. -/
def publishFanout (clients : Clients) (store : Store) (post : Post) (pid : Nat)
    (now : Int) :
    Except HTTPError (Store × List (String × Option String)) × List Platform :=
  let fr := post_to_platforms clients post.content post.image_url (mkPlatformsArg post)
  (Except.ok (updateById store pid (markPublished now fr.2), fr.2), fr.1)

/-- The body of the try-block of publish_post (main.py lines 322-377),
before the blanket exception handler: 404 when the id is absent, 400 when
already published, draft flag cleared without a time check for drafts, 400
for a non-draft scheduled in the future, otherwise fan out and mark
published. -/
def publish_post_try (clients : Clients) (store : Store) (pid : Nat) (now : Int) :
    Except HTTPError (Store × List (String × Option String)) × List Platform :=
  match findPost store pid with
  | none => (Except.error ⟨404, "Post not found"⟩, [])
  | some post =>
    if post.is_published then
      (Except.error ⟨400, "Post is already published"⟩, [])
    else if post.is_draft then
      publishFanout clients
        (updateById store pid (fun q => { q with is_draft := false })) post pid now
    else
      match post.scheduled_time with
      | some t =>
        if now < t then
          (Except.error ⟨400, "Post is scheduled for future publication"⟩, [])
        else
          publishFanout clients store post pid now
      | none => publishFanout clients store post pid now

/-- POST /posts/(id)/publish (main.py lines 316-382).  The whole body sits
inside a try whose handler is except Exception, and FastAPI HTTPException
is an Exception subclass, so every error raised inside — including the 404
and the two 400s — is re-raised as a 500 whose detail wraps str(e), which
for an HTTPException is "status: detail". -/
def publish_post (clients : Clients) (store : Store) (pid : Nat) (now : Int) :
    Except HTTPError (Store × List (String × Option String)) × List Platform :=
  match publish_post_try clients store pid now with
  | (Except.error e, inv) =>
    (Except.error ⟨500, "Failed to publish post: " ++ toString e.status ++ ": " ++ e.detail⟩,
     inv)
  | ok => ok

/-- The WHERE clause of the due-post query (main.py lines 650-659): a NULL
scheduled_time never satisfies the SQL comparison. -/
def duePred (now : Int) (p : Post) : Bool :=
  (match p.scheduled_time with
   | some t => decide (t ≤ now)
   | none => false)
    && !p.is_published && !p.is_canceled && !p.is_draft

/-- The due-post query run at the start of the sweep. -/
def dueQuery (store : Store) (now : Int) : List Post :=
  List.filter (duePred now) store

/-- The per-post loop of publish_due_tweets (main.py lines 663-705):
for each due post (a snapshot taken before the loop), fan out with the
plain-keyed platforms dict and mark the row published.  The second
component logs, per processed post, the platform clients invoked. -/
def sweepPosts (clients : Clients) (now : Int) :
    List Post → Store → List (Nat × List Platform) → Store × List (Nat × List Platform)
  | [], store, log => (store, log)
  | d :: ds, store, log =>
    let fr := post_to_platforms clients d.content d.image_url (mkPlatformsArg d)
    sweepPosts clients now ds
      (updateById store d.id (markPublished now fr.2))
      (log ++ [(d.id, fr.1)])

/-- The due-post sweep publish_due_tweets (main.py lines 641-708). -/
def publish_due_tweets (clients : Clients) (store : Store) (now : Int) :
    Store × List (Nat × List Platform) :=
  sweepPosts clients now (dueQuery store now) store []

/-- The request body for post create/update (the PostCreate pydantic model,
main.py lines 57-80). -/
structure PostCreate where
  content : Option String := none
  image_url : Option String := none
  scheduled_time : Option Int := none
  publish_to_twitter : Bool := true
  publish_to_instagram : Bool := false
  publish_to_facebook : Bool := false
  publish_to_pinterest : Bool := false
deriving DecidableEq, Repr

/-- to_cst (main.py lines 125-139): convert a stored scheduled_time to the
scheduling timezone for the response; a NULL value is replaced by a default
one day past now.  On instants the conversion is the identity. -/
def to_cst (dt : Option Int) (now : Int) : Int :=
  match dt with
  | none => now + 86400
  | some t => t

/-- Python falsy-or on an optional string: None and the empty string are
replaced (used for "post.content or gen" and "post.content or fallback"). -/
def orElseStr (s : Option String) (dflt : String) : String :=
  match s with
  | none => dflt
  | some v => if v = "" then dflt else v

/-- POST /posts/ (create_scheduled_post, main.py lines 189-225): 400 when
scheduled_time is absent or not strictly in the future; otherwise insert a
non-draft row (content generated when absent or empty, modelled by the gen
argument) and return the read-back row with its scheduled_time passed
through to_cst. -/
def create_scheduled_post (store : Store) (nextId : Nat) (gen : String)
    (body : PostCreate) (now : Int) : Except HTTPError (Store × Post) :=
  match body.scheduled_time with
  | none => Except.error ⟨400, "Scheduled time is required"⟩
  | some t =>
    if t ≤ now then
      Except.error ⟨400, "Scheduled time must be in the future (CST)"⟩
    else
      let p : Post :=
        { id := nextId
          content := some (orElseStr body.content gen)
          image_url := body.image_url
          scheduled_time := some t
          is_published := false
          is_canceled := false
          is_draft := false
          created_at := now
          updated_at := now
          engagement_score := 0
          publish_to_twitter := body.publish_to_twitter
          publish_to_instagram := body.publish_to_instagram
          publish_to_facebook := body.publish_to_facebook
          publish_to_pinterest := body.publish_to_pinterest
          twitter_post_id := none
          instagram_post_id := none
          facebook_post_id := none
          pinterest_post_id := none }
      Except.ok (store ++ [p], { p with scheduled_time := some (to_cst p.scheduled_time now) })

/-- PUT /posts/(id) (update_post, main.py lines 269-314): 404 when absent,
otherwise overwrite content (falsy-or empty string), image_url,
scheduled_time, the four target flags and updated_at — with no check of
is_published. -/
def update_post (store : Store) (pid : Nat) (body : PostCreate) (now : Int) :
    Except HTTPError Store :=
  match findPost store pid with
  | none => Except.error ⟨404, "Post not found"⟩
  | some _ =>
    Except.ok (updateById store pid (fun q =>
      { q with
        content := some (orElseStr body.content "")
        image_url := some (orElseStr body.image_url "")
        scheduled_time := body.scheduled_time
        updated_at := now
        publish_to_twitter := body.publish_to_twitter
        publish_to_instagram := body.publish_to_instagram
        publish_to_facebook := body.publish_to_facebook
        publish_to_pinterest := body.publish_to_pinterest }))

/-- POST /posts/(id)/cancel (cancel_post, main.py lines 399-412). -/
def cancel_post (store : Store) (pid : Nat) (now : Int) : Except HTTPError Store :=
  match findPost store pid with
  | none => Except.error ⟨404, "Post not found"⟩
  | some _ =>
    Except.ok (updateById store pid (fun q => { q with is_canceled := true, updated_at := now }))

/-- DELETE /posts/(id)/cancel (uncancel_post, main.py lines 414-427). -/
def uncancel_post (store : Store) (pid : Nat) (now : Int) : Except HTTPError Store :=
  match findPost store pid with
  | none => Except.error ⟨404, "Post not found"⟩
  | some _ =>
    Except.ok (updateById store pid (fun q => { q with is_canceled := false, updated_at := now }))

/-- POST /posts/(id)/schedule (schedule_post, main.py lines 514-553): 404
when absent, 400 when the body carries no time or a non-future time,
otherwise set the time, clear the draft flag — with no check of
is_published. -/
def schedule_post (store : Store) (pid : Nat) (bodyTime : Option Int) (now : Int) :
    Except HTTPError Store :=
  match findPost store pid with
  | none => Except.error ⟨404, "Post not found"⟩
  | some _ =>
    match bodyTime with
    | none => Except.error ⟨400, "Scheduled time is required"⟩
    | some t =>
      if t ≤ now then
        Except.error ⟨400, "Scheduled time must be in the future (CST)"⟩
      else
        Except.ok (updateById store pid (fun q =>
          { q with scheduled_time := some t, is_draft := false, updated_at := now }))

/-- The effect of the sweep loop on one row: rows whose id matches the due
post being processed are marked published, others are untouched. -/
def touchOne (clients : Clients) (now : Int) (d : Post) (q : Post) : Post :=
  if q.id = d.id then
    markPublished now (post_to_platforms clients d.content d.image_url (mkPlatformsArg d)).2 q
  else q

/-- The cumulative effect of the whole sweep loop on one row. -/
def touchAll (clients : Clients) (now : Int) (ds : List Post) (q : Post) : Post :=
  List.foldl (fun q d => touchOne clients now d q) q ds

/-- Example clients: every platform call succeeds with a fixed id. -/
def egClients : Clients := fun _ _ _ => Except.ok (some "id-1")

/-- Example clients: every platform call raises. -/
def failClients : Clients := fun _ _ _ => Except.error "down"

/-- Example row: a due scheduled post targeting twitter and facebook. -/
def egDuePost : Post :=
  { id := 1
    content := some "hello"
    image_url := some "img"
    scheduled_time := some 5
    is_published := false
    is_canceled := false
    is_draft := false
    created_at := 0
    updated_at := 0
    engagement_score := 0
    publish_to_twitter := true
    publish_to_instagram := false
    publish_to_facebook := true
    publish_to_pinterest := false
    twitter_post_id := none
    instagram_post_id := none
    facebook_post_id := none
    pinterest_post_id := none }

/-- Example row published by the sweep or the publish endpoint at time 10:
the flags stored in the plain-keyed dict are never consulted, so every
per-platform id stays null. -/
def egDuePostMarked : Post :=
  { egDuePost with is_published := true, updated_at := 10 }

/-- Clients for the C1 evaluation: the two targeted platforms would succeed
if they were invoked. -/
def c1Clients : Clients := fun p _ _ =>
  match p with
  | Platform.twitter => Except.ok (some "tw-1")
  | Platform.facebook => Except.ok (some "fb-1")
  | _ => Except.error "not targeted"

/-- Clients for the C4 example: twitter succeeds with id 123, facebook
raises, the untargeted platforms would return no id. -/
def c4Clients : Clients := fun p _ _ =>
  match p with
  | Platform.twitter => Except.ok (some "123")
  | Platform.facebook => Except.error "facebook down"
  | _ => Except.ok none

/-- A platforms dict carrying the publish_to_... keys the fan-out actually
reads, targeting twitter and facebook. -/
def c4Platforms : List (String × Bool) :=
  [("publish_to_twitter", true), ("publish_to_instagram", false),
   ("publish_to_facebook", true), ("publish_to_pinterest", false)]

/-- Example row: already published. -/
def c7PubPost : Post := { egDuePost with is_published := true }

/-- Example row: non-draft scheduled in the future (time 100, now 10). -/
def c7FutPost : Post := { egDuePost with scheduled_time := some 100 }

/-- Example row: a published post, target of the C8 counterexample. -/
def c8Post : Post :=
  { egDuePost with
    content := some "a"
    is_published := true
    twitter_post_id := some "tw-9" }

/-- Update body used by the C8 counterexample. -/
def c8Body : PostCreate :=
  { content := some "b"
    image_url := some "img2"
    scheduled_time := some 60
    publish_to_twitter := false
    publish_to_instagram := true
    publish_to_facebook := false
    publish_to_pinterest := true }

/-- The row produced by applying c8Body to c8Post through update_post. -/
def c8Updated : Post :=
  { c8Post with
    content := some "b"
    image_url := some "img2"
    scheduled_time := some 60
    updated_at := 99
    publish_to_twitter := false
    publish_to_instagram := true
    publish_to_facebook := false
    publish_to_pinterest := true }

/-- Create body with no scheduled_time. -/
def c9BodyNone : PostCreate := { content := some "c" }

/-- Create body with a past scheduled_time (3, against now = 10). -/
def c9BodyPast : PostCreate := { content := some "c", scheduled_time := some 3 }

/-- Create body with a future scheduled_time (20, against now = 10). -/
def c9BodyFut : PostCreate := { content := some "c", scheduled_time := some 20 }

/-- Characterization of post_to_platforms: the invoked clients are exactly
the platforms whose remapped flag is true, in the fixed order, and the
results dict holds one entry per invoked platform carrying the client
outcome. -/
theorem post_to_platforms_eq (clients : Clients) (content image_url : Option String)
    (platformsArg : List (String × Bool)) :
    post_to_platforms clients content image_url platformsArg =
      (platformOrder.filter (flagOf platformsArg),
       (platformOrder.filter (flagOf platformsArg)).map
         (fun p => (resultKey p, clientValue clients content image_url p))) := by
  cases htw : flagOf platformsArg Platform.twitter <;>
    cases hig : flagOf platformsArg Platform.instagram <;>
      cases hfb : flagOf platformsArg Platform.facebook <;>
        cases hpi : flagOf platformsArg Platform.pinterest <;>
          simp [post_to_platforms, platformOrder, List.filter, htw, hig, hfb, hpi]

/-- Looking up one invoked platform result in the aggregated results dict:
for a platform whose flag is true, resultsGet returns that platform client
outcome (success id, or none when the client raised). -/
theorem resultsGet_post_to_platforms (clients : Clients)
    (content image_url : Option String) (platformsArg : List (String × Bool))
    (p : Platform) (hp : flagOf platformsArg p = true) :
    resultsGet (post_to_platforms clients content image_url platformsArg).2
      (resultKey p) = clientValue clients content image_url p := by
  rw [post_to_platforms_eq]
  cases p <;>
    cases htw : flagOf platformsArg Platform.twitter <;>
      cases hig : flagOf platformsArg Platform.instagram <;>
        cases hfb : flagOf platformsArg Platform.facebook <;>
          cases hpi : flagOf platformsArg Platform.pinterest <;>
            simp_all [platformOrder, List.filter, resultsGet, resultKey]

/-- The remapped flags inside post_to_platforms are all false whenever the
platforms dict is keyed by the plain platform names, because the lookups use
the publish_to_... keys with default False. -/
theorem flagOf_mkPlatformsArg (p : Post) (q : Platform) :
    flagOf (mkPlatformsArg p) q = false := by
  cases q <;> rfl

/-- With the plain-keyed platforms dict the fan-out invokes no client and
returns an empty results dict, whatever the stored flag values are. -/
theorem post_to_platforms_mkPlatformsArg (clients : Clients)
    (content image_url : Option String) (p : Post) :
    post_to_platforms clients content image_url (mkPlatformsArg p) = ([], []) := by
  rw [post_to_platforms_eq]
  have h : platformOrder.filter (flagOf (mkPlatformsArg p)) = [] := by
    simp [platformOrder, List.filter, flagOf_mkPlatformsArg]
  rw [h]
  rfl

/-- Unfolded form of the due predicate. -/
theorem duePred_eq_true_iff (now : Int) (q : Post) :
    duePred now q = true ↔
      (∃ t, q.scheduled_time = some t ∧ t ≤ now) ∧ q.is_published = false ∧
        q.is_canceled = false ∧ q.is_draft = false := by
  cases h : q.scheduled_time <;> simp [duePred, h, and_assoc]

/-- The sweep loop factors through a per-row map: the resulting table is the
original one with every row touched by each processed due post in turn. -/
theorem sweepPosts_fst (clients : Clients) (now : Int) (ds : List Post) :
    ∀ (store : Store) (log : List (Nat × List Platform)),
      (sweepPosts clients now ds store log).1 = store.map (touchAll clients now ds) := by
  induction ds with
  | nil =>
    intro store log
    show store = store.map (touchAll clients now [])
    have : touchAll clients now [] = fun q => q := rfl
    rw [this, List.map_id']
  | cons d ds ih =>
    intro store log
    rw [sweepPosts, ih, updateById, List.map_map]
    rfl

/-- The sweep log records one entry per processed due post, and with the
plain-keyed platforms dict every entry carries an empty invocation list. -/
theorem sweepPosts_snd (clients : Clients) (now : Int) (ds : List Post) :
    ∀ (store : Store) (log : List (Nat × List Platform)),
      (sweepPosts clients now ds store log).2 =
        log ++ ds.map (fun d => (d.id, ([] : List Platform))) := by
  induction ds with
  | nil => intro store log; simp [sweepPosts]
  | cons d ds ih =>
    intro store log
    rw [sweepPosts]
    simp only [post_to_platforms_mkPlatformsArg]
    rw [ih]
    simp

/-- touchOne changes nothing but the publication mark and the id fields. -/
theorem touchOne_frame (clients : Clients) (now : Int) (d q : Post) :
    (touchOne clients now d q).id = q.id ∧
      (touchOne clients now d q).scheduled_time = q.scheduled_time ∧
      (touchOne clients now d q).is_canceled = q.is_canceled ∧
      (touchOne clients now d q).is_draft = q.is_draft := by
  unfold touchOne
  split <;> exact ⟨rfl, rfl, rfl, rfl⟩

/-- touchAll changes nothing but the publication mark and the id fields. -/
theorem touchAll_frame (clients : Clients) (now : Int) (ds : List Post) :
    ∀ q : Post,
      (touchAll clients now ds q).id = q.id ∧
        (touchAll clients now ds q).scheduled_time = q.scheduled_time ∧
        (touchAll clients now ds q).is_canceled = q.is_canceled ∧
        (touchAll clients now ds q).is_draft = q.is_draft := by
  induction ds with
  | nil => intro q; exact ⟨rfl, rfl, rfl, rfl⟩
  | cons d ds ih =>
    intro q
    have h1 := touchOne_frame clients now d q
    have h2 := ih (touchOne clients now d q)
    simp only [touchAll, List.foldl] at h2 ⊢
    exact ⟨h2.1.trans h1.1, h2.2.1.trans h1.2.1, h2.2.2.1.trans h1.2.2.1,
      h2.2.2.2.trans h1.2.2.2⟩

/-- touchOne never clears the publication mark. -/
theorem touchOne_pub_mono (clients : Clients) (now : Int) (d q : Post)
    (h : q.is_published = true) : (touchOne clients now d q).is_published = true := by
  unfold touchOne
  split
  · rfl
  · exact h

/-- touchAll never clears the publication mark. -/
theorem touchAll_pub_mono (clients : Clients) (now : Int) (ds : List Post) :
    ∀ q : Post, q.is_published = true →
      (touchAll clients now ds q).is_published = true := by
  induction ds with
  | nil => intro q h; exact h
  | cons d ds ih =>
    intro q h
    exact ih (touchOne clients now d q) (touchOne_pub_mono clients now d q h)

/-- A row whose id occurs among the processed due posts ends the sweep
marked published. -/
theorem touchAll_published_of_mem (clients : Clients) (now : Int) (ds : List Post) :
    ∀ q : Post, q.id ∈ ds.map Post.id →
      (touchAll clients now ds q).is_published = true := by
  induction ds with
  | nil => intro q h; simp at h
  | cons d ds ih =>
    intro q h
    simp only [List.map_cons, List.mem_cons] at h
    rcases h with h | h
    · have hq : touchOne clients now d q =
          markPublished now
            (post_to_platforms clients d.content d.image_url (mkPlatformsArg d)).2 q := by
        unfold touchOne
        rw [if_pos h]
      have hpub : (touchOne clients now d q).is_published = true := by
        rw [hq]; rfl
      exact touchAll_pub_mono clients now ds (touchOne clients now d q) hpub
    · have hid : (touchOne clients now d q).id = q.id := (touchOne_frame clients now d q).1
      exact ih (touchOne clients now d q) (by rw [hid]; exact h)

/-- After one sweep, no post that was already due before the sweep is still
selected by the due query: the sweep marked them all published. -/
theorem dueQuery_after_sweep (clients : Clients) (store : Store) (now1 now2 : Int)
    (h : ∀ q ∈ store, duePred now2 q = true → duePred now1 q = true) :
    dueQuery (publish_due_tweets clients store now1).1 now2 = [] := by
  have hfst : (publish_due_tweets clients store now1).1 =
      store.map (touchAll clients now1 (dueQuery store now1)) :=
    sweepPosts_fst clients now1 (dueQuery store now1) store []
  rw [hfst]
  show List.filter (duePred now2)
      (store.map (touchAll clients now1 (dueQuery store now1))) = []
  rw [List.filter_eq_nil_iff]
  intro q' hq' hdue
  rcases List.mem_map.mp hq' with ⟨p, hp, rfl⟩
  rw [duePred_eq_true_iff] at hdue
  obtain ⟨⟨t, hts, htle⟩, hpub, hcan, hdr⟩ := hdue
  have hframe := touchAll_frame clients now1 (dueQuery store now1) p
  have hpubp : p.is_published = false := by
    cases hpp : p.is_published
    · rfl
    · have := touchAll_pub_mono clients now1 (dueQuery store now1) p hpp
      rw [this] at hpub
      exact Bool.noConfusion hpub
  have hdp2 : duePred now2 p = true := by
    rw [duePred_eq_true_iff]
    refine ⟨⟨t, ?_, htle⟩, hpubp, ?_, ?_⟩
    · rw [← hframe.2.1]; exact hts
    · rw [← hframe.2.2.1]; exact hcan
    · rw [← hframe.2.2.2]; exact hdr
  have hmem : p ∈ dueQuery store now1 := List.mem_filter.mpr ⟨hp, h p hp hdp2⟩
  have hidmem : p.id ∈ (dueQuery store now1).map Post.id :=
    List.mem_map.mpr ⟨p, hmem, rfl⟩
  have := touchAll_published_of_mem clients now1 (dueQuery store now1) p hidmem
  rw [this] at hpub
  exact Bool.noConfusion hpub

/-- Membership in an updated table comes from membership in the original. -/
theorem mem_updateById {store : Store} {pid : Nat} {f : Post → Post} {q' : Post}
    (h : q' ∈ updateById store pid f) :
    ∃ q, q ∈ store ∧ q' = if q.id = pid then f q else q := by
  rcases List.mem_map.mp h with ⟨q, hq, hfa⟩
  exact ⟨q, hq, hfa.symm⟩

/-- Row lookup after an id-preserving update finds the updated row. -/
theorem findPost_updateById (store : Store) (pid : Nat) (f : Post → Post)
    (hf : ∀ q, (f q).id = q.id) :
    findPost (updateById store pid f) pid = (findPost store pid).map f := by
  induction store with
  | nil => rfl
  | cons q s ih =>
    simp only [updateById, List.map_cons]
    unfold findPost
    by_cases h : q.id = pid
    · rw [if_pos h]
      simp [List.find?, hf, h]
    · rw [if_neg h]
      simp only [List.find?, hf, h]
      have hbeq : (q.id == pid) = false := by simp [h]
      rw [hbeq]
      exact ih

/-- The fan-out tail of publish_post always finds empty flags (plain-keyed
dict), so it invokes nothing and writes null ids. -/
theorem publishFanout_eq (clients : Clients) (store : Store) (post : Post)
    (pid : Nat) (now : Int) :
    publishFanout clients store post pid now =
      (Except.ok (updateById store pid (markPublished now []), []), []) := by
  simp [publishFanout, post_to_platforms_mkPlatformsArg]

/-- Shape of every successful run of the publish_post try-block: the result
dict is empty, no client was invoked, and the table is some intermediate
table with the target row marked published with null ids. -/
theorem publish_post_try_ok (clients : Clients) (store : Store) (pid : Nat)
    (now : Int) (s' : Store) (results : List (String × Option String))
    (inv : List Platform)
    (h : publish_post_try clients store pid now = (Except.ok (s', results), inv)) :
    results = [] ∧ inv = [] ∧
      ∃ s0 : Store, s' = updateById s0 pid (markPublished now []) := by
  unfold publish_post_try at h
  split at h
  · simp at h
  · split at h
    · simp at h
    · split at h
      · rw [publishFanout_eq] at h
        simp only [Prod.mk.injEq, Except.ok.injEq] at h
        exact ⟨h.1.2.symm, h.2.symm, _, h.1.1.symm⟩
      · split at h
        · split at h
          · simp at h
          · rw [publishFanout_eq] at h
            simp only [Prod.mk.injEq, Except.ok.injEq] at h
            exact ⟨h.1.2.symm, h.2.symm, _, h.1.1.symm⟩
        · rw [publishFanout_eq] at h
          simp only [Prod.mk.injEq, Except.ok.injEq] at h
          exact ⟨h.1.2.symm, h.2.symm, _, h.1.1.symm⟩

/-- The blanket handler of publish_post does not change which clients were
invoked. -/
theorem publish_post_snd (clients : Clients) (store : Store) (pid : Nat) (now : Int) :
    (publish_post clients store pid now).2 = (publish_post_try clients store pid now).2 := by
  unfold publish_post
  cases publish_post_try clients store pid now with
  | mk res inv => cases res <;> rfl

/-- A successful publish_post call comes from a successful try-block. -/
theorem publish_post_fst_ok (clients : Clients) (store : Store) (pid : Nat)
    (now : Int) (v : Store × List (String × Option String))
    (h : (publish_post clients store pid now).1 = Except.ok v) :
    (publish_post_try clients store pid now).1 = Except.ok v := by
  unfold publish_post at h
  cases hres : publish_post_try clients store pid now with
  | mk res inv =>
    rw [hres] at h
    cases res with
    | error e => exact Except.noConfusion (show Except.error _ = Except.ok v from h)
    | ok w => exact h

/-- Shape of every successful publish_post call (the blanket handler only
rewrites errors). -/
theorem publish_post_ok (clients : Clients) (store : Store) (pid : Nat)
    (now : Int) (s' : Store) (results : List (String × Option String))
    (h : (publish_post clients store pid now).1 = Except.ok (s', results)) :
    results = [] ∧ (publish_post clients store pid now).2 = [] ∧
      ∃ s0 : Store, s' = updateById s0 pid (markPublished now []) := by
  have h1 := publish_post_fst_ok clients store pid now (s', results) h
  have heq : publish_post_try clients store pid now =
      (Except.ok (s', results), (publish_post_try clients store pid now).2) := by
    rw [← h1]
  have h2 := publish_post_try_ok clients store pid now s' results
    (publish_post_try clients store pid now).2 heq
  refine ⟨h2.1, ?_, h2.2.2⟩
  rw [publish_post_snd]
  exact h2.2.1

/-- C3: For every post in the store and every query time now, the due-post
query used by the sweep selects the post if and only if is_draft is clear,
is_published is clear, is_canceled is clear, scheduled_time is present and
scheduled_time is at most now. -/
theorem C3_due_query_iff (store : Store) (now : Int) (p : Post) :
    p ∈ dueQuery store now ↔
      p ∈ store ∧ p.is_draft = false ∧ p.is_published = false ∧
        p.is_canceled = false ∧ ∃ t, p.scheduled_time = some t ∧ t ≤ now := by
  show p ∈ List.filter (duePred now) store ↔ _
  rw [List.mem_filter, duePred_eq_true_iff]
  tauto

/-- C6: running the due-post sweep twice in succession, with every post due
at the second-run time already due at the first-run time (no new posts
becoming due between runs), makes no publish calls during the second run:
the second sweep processes no posts (empty log) and leaves the store
unchanged, because every post processed by the first run has been marked
published and is excluded by the due predicate. -/
theorem C6_sweep_idempotent (clients1 clients2 : Clients) (store : Store)
    (now1 now2 : Int)
    (h : ∀ q ∈ store, duePred now2 q = true → duePred now1 q = true) :
    publish_due_tweets clients2 (publish_due_tweets clients1 store now1).1 now2 =
      ((publish_due_tweets clients1 store now1).1, []) := by
  have hnil := dueQuery_after_sweep clients1 store now1 now2 h
  show sweepPosts clients2 now2
      (dueQuery (publish_due_tweets clients1 store now1).1 now2)
      (publish_due_tweets clients1 store now1).1 [] = _
  rw [hnil]
  rfl

/-- C6 witness: a concrete one-post store swept twice at the same time. -/
theorem C6_sweep_idempotent_witness :
    publish_due_tweets egClients (publish_due_tweets egClients [egDuePost] 10).1 10 =
      ((publish_due_tweets egClients [egDuePost] 10).1, []) :=
  C6_sweep_idempotent egClients egClients [egDuePost] 10 10 (fun _ _ hq => hq)

/-- C1: evaluation of the publish fan-out at the claim flag assignment
(twitter true, instagram false, facebook true, pinterest false), exactly as
the callers construct it, with clients that would succeed for the two
targeted platforms.  The claim says exactly the twitter and facebook
clients are invoked; the code invokes no client at all and leaves every
per-platform result field null, because the flag lookups use the
publish_to_... keys, which are absent from the dict.  The second conjunct
shows the full publish-now path on such a post: the row is marked published
with all four ids null. -/
theorem C1_fanout_flags_eval :
    post_to_platforms c1Clients (some "hello") (some "img")
        [("twitter", true), ("instagram", false), ("facebook", true),
         ("pinterest", false)] = ([], []) ∧
    publish_post c1Clients [egDuePost] 1 10 =
      (Except.ok ([egDuePostMarked], []), []) :=
  ⟨rfl, rfl⟩

/-- C2: with the platforms mapping keyed by the plain platform names — the
shape both publish_post and publish_due_tweets construct — the internal
lookups of post_to_platforms default every flag to false, so no platform
client is invoked and the returned result map is empty regardless of the
flag values; a successful publish_post call therefore marks the row
is_published with all four per-platform id fields null, and every entry of
the sweep log carries an empty invocation list. -/
theorem C2_plain_keys_no_invocation :
    (∀ (clients : Clients) (content image_url : Option String) (b1 b2 b3 b4 : Bool),
      post_to_platforms clients content image_url
        [("twitter", b1), ("instagram", b2), ("facebook", b3), ("pinterest", b4)] =
          ([], [])) ∧
    (∀ (clients : Clients) (store : Store) (pid : Nat) (now : Int)
        (s' : Store) (results : List (String × Option String)),
      (publish_post clients store pid now).1 = Except.ok (s', results) →
        results = [] ∧ (publish_post clients store pid now).2 = [] ∧
          ∀ q' ∈ s', q'.id = pid →
            q'.is_published = true ∧ q'.twitter_post_id = none ∧
              q'.instagram_post_id = none ∧ q'.facebook_post_id = none ∧
                q'.pinterest_post_id = none) ∧
    (∀ (clients : Clients) (store : Store) (now : Int),
      ∀ e ∈ (publish_due_tweets clients store now).2, e.2 = ([] : List Platform)) := by
  refine ⟨?_, ?_, ?_⟩
  · intro clients content image_url b1 b2 b3 b4
    rfl
  · intro clients store pid now s' results h
    obtain ⟨hres, hinv, s0, hs⟩ := publish_post_ok clients store pid now s' results h
    refine ⟨hres, hinv, ?_⟩
    intro q' hq' hid
    rw [hs] at hq'
    obtain ⟨q, _, hq'eq⟩ := mem_updateById hq'
    by_cases hqid : q.id = pid
    · rw [if_pos hqid] at hq'eq
      subst hq'eq
      exact ⟨rfl, rfl, rfl, rfl, rfl⟩
    · rw [if_neg hqid] at hq'eq
      subst hq'eq
      exact absurd hid hqid
  · intro clients store now e he
    have hlog := sweepPosts_snd clients now (dueQuery store now) store []
    have : (publish_due_tweets clients store now).2 =
        (dueQuery store now).map (fun d => (d.id, ([] : List Platform))) := by
      show (sweepPosts clients now (dueQuery store now) store []).2 = _
      rw [hlog]
      rfl
    rw [this] at he
    obtain ⟨d, _, hde⟩ := List.mem_map.mp he
    rw [← hde]

/-- C2 witness: the publish-now path on a concrete due post targeting
twitter and facebook invokes nothing. -/
theorem C2_plain_keys_no_invocation_witness :
    (publish_post egClients [egDuePost] 1 10).2 = [] :=
  (C2_plain_keys_no_invocation.2.1 egClients [egDuePost] 1 10
    [egDuePostMarked] [] rfl).2.1

/-- C4: inside post_to_platforms, a raising platform client yields a null
result for that platform only; which platforms get invoked is determined by
the flags alone, independent of any client outcome, so a failure never
prevents the other targeted clients from being invoked and no exception
escapes.  The last conjunct is the spec example over a dict carrying the
publish_to_... keys: facebook raises, twitter succeeds with id 123, and the
aggregated result maps twitter_post_id to 123 and facebook_post_id to
null. -/
theorem C4_platform_isolation :
    (∀ (clients : Clients) (content image_url : Option String)
        (ps : List (String × Bool)),
      (post_to_platforms clients content image_url ps).1 =
        platformOrder.filter (flagOf ps)) ∧
    (∀ (clients : Clients) (content image_url : Option String)
        (ps : List (String × Bool)) (p : Platform) (e : String),
      flagOf ps p = true → clients p content image_url = Except.error e →
        resultsGet (post_to_platforms clients content image_url ps).2
          (resultKey p) = none) ∧
    (∀ (clients : Clients) (content image_url : Option String)
        (ps : List (String × Bool)) (p : Platform) (v : Option String),
      flagOf ps p = true → clients p content image_url = Except.ok v →
        resultsGet (post_to_platforms clients content image_url ps).2
          (resultKey p) = v) ∧
    post_to_platforms c4Clients (some "hello") (some "img") c4Platforms =
      ([Platform.twitter, Platform.facebook],
       [("twitter_post_id", some "123"), ("facebook_post_id", none)]) := by
  refine ⟨?_, ?_, ?_, ?_⟩
  · intro clients content image_url ps
    rw [post_to_platforms_eq]
  · intro clients content image_url ps p e hflag hcl
    rw [resultsGet_post_to_platforms clients content image_url ps p hflag]
    unfold clientValue
    rw [hcl]
  · intro clients content image_url ps p v hflag hcl
    rw [resultsGet_post_to_platforms clients content image_url ps p hflag]
    unfold clientValue
    rw [hcl]
  · rfl

/-- C4 witness: the raising facebook client of the example produces a null
facebook result. -/
theorem C4_platform_isolation_witness :
    resultsGet (post_to_platforms c4Clients (some "hello") (some "img") c4Platforms).2
      (resultKey Platform.facebook) = none :=
  C4_platform_isolation.2.1 c4Clients (some "hello") (some "img") c4Platforms
    Platform.facebook "facebook down" rfl rfl

/-- C5: after the fan-out results are collected, both publish paths mark
the post is_published unconditionally and copy whatever ids the results
dict holds — in particular a post is marked fully published even when every
targeted platform failed, since nothing inspects the results before the
write. -/
theorem C5_unconditional_publish :
    (∀ (clients : Clients) (store : Store) (pid : Nat) (now : Int)
        (s' : Store) (results : List (String × Option String)),
      (publish_post clients store pid now).1 = Except.ok (s', results) →
        ∀ q' ∈ s', q'.id = pid →
          q'.is_published = true ∧
            q'.twitter_post_id = resultsGet results "twitter_post_id" ∧
            q'.instagram_post_id = resultsGet results "instagram_post_id" ∧
            q'.facebook_post_id = resultsGet results "facebook_post_id" ∧
            q'.pinterest_post_id = resultsGet results "pinterest_post_id") ∧
    (∀ (clients : Clients) (store : Store) (now : Int) (d : Post),
      d ∈ dueQuery store now →
        ∀ q' ∈ (publish_due_tweets clients store now).1, q'.id = d.id →
          q'.is_published = true) := by
  constructor
  · intro clients store pid now s' results h q' hq' hid
    obtain ⟨hres, _, s0, hs⟩ := publish_post_ok clients store pid now s' results h
    subst hres
    rw [hs] at hq'
    obtain ⟨q, _, hq'eq⟩ := mem_updateById hq'
    by_cases hqid : q.id = pid
    · rw [if_pos hqid] at hq'eq
      subst hq'eq
      exact ⟨rfl, rfl, rfl, rfl, rfl⟩
    · rw [if_neg hqid] at hq'eq
      subst hq'eq
      exact absurd hid hqid
  · intro clients store now d hd q' hq' hid
    have hfst : (publish_due_tweets clients store now).1 =
        store.map (touchAll clients now (dueQuery store now)) :=
      sweepPosts_fst clients now (dueQuery store now) store []
    rw [hfst] at hq'
    obtain ⟨p, hp, hpe⟩ := List.mem_map.mp hq'
    subst hpe
    have hpid : (touchAll clients now (dueQuery store now) p).id = p.id :=
      (touchAll_frame clients now (dueQuery store now) p).1
    have hmem : p.id ∈ (dueQuery store now).map Post.id :=
      List.mem_map.mpr ⟨d, hd, (hpid.symm.trans hid).symm⟩
    exact touchAll_published_of_mem clients now (dueQuery store now) p hmem

/-- C5 witness: every platform client raising still yields a store whose
target row is marked published with null ids. -/
theorem C5_unconditional_publish_witness :
    egDuePostMarked.is_published = true ∧
      egDuePostMarked.twitter_post_id = resultsGet [] "twitter_post_id" ∧
      egDuePostMarked.instagram_post_id = resultsGet [] "instagram_post_id" ∧
      egDuePostMarked.facebook_post_id = resultsGet [] "facebook_post_id" ∧
      egDuePostMarked.pinterest_post_id = resultsGet [] "pinterest_post_id" :=
  C5_unconditional_publish.1 failClients [egDuePost] 1 10 [egDuePostMarked] [] rfl
    egDuePostMarked (List.mem_singleton.mpr rfl) rfl

/-- C7: evaluation of the publish-now endpoint on an already-published post
and on a non-draft post scheduled in the future (time 100 against now 10).
In both cases no fan-out is performed (no client invoked), but the surfaced
HTTP status is 500, not the claimed 400: the endpoint blanket
except-Exception handler catches the HTTPException(400) the body itself
raised and re-raises it as a 500 whose detail wraps the original status and
message. -/
theorem C7_publish_errors_eval :
    publish_post egClients [c7PubPost] 1 10 =
      (Except.error
        ⟨500, "Failed to publish post: 400: Post is already published"⟩, []) ∧
    publish_post egClients [c7FutPost] 1 10 =
      (Except.error
        ⟨500, "Failed to publish post: 400: Post is scheduled for future publication"⟩,
       []) :=
  ⟨rfl, rfl⟩

/-- C8 counterexample: update_post performs its full overwrite on a post
with is_published set — the claim that a published post cannot be mutated
fails at this concrete input (content changes from a to b, the schedule and
the target flags change too). -/
theorem C8_immutability_counterexample :
    c8Post.is_published = true ∧
    c8Post.content = some "a" ∧
    update_post [c8Post] 1 c8Body 99 = Except.ok [c8Updated] ∧
    c8Updated.content = some "b" ∧
    c8Updated.scheduled_time = some 60 ∧
    c8Updated.is_published = true :=
  ⟨rfl, rfl, rfl, rfl, rfl, rfl⟩

/-- C8 amended: a published post is not immutable.  update_post overwrites
content, image, schedule and target flags, cancel_post sets the cancel
flag, and schedule_post rewrites the schedule, all without consulting
is_published. -/
theorem C8_published_posts_mutable (store : Store) (pid : Nat) (body : PostCreate)
    (now tnew : Int) (p : Post) (hfind : findPost store pid = some p)
    (_hpub : p.is_published = true) (hfut : now < tnew) :
    (∃ s1, update_post store pid body now = Except.ok s1 ∧
      ∀ q' ∈ s1, q'.id = pid →
        q'.content = some (orElseStr body.content "") ∧
        q'.image_url = some (orElseStr body.image_url "") ∧
        q'.scheduled_time = body.scheduled_time ∧
        q'.publish_to_twitter = body.publish_to_twitter ∧
        q'.publish_to_instagram = body.publish_to_instagram ∧
        q'.publish_to_facebook = body.publish_to_facebook ∧
        q'.publish_to_pinterest = body.publish_to_pinterest) ∧
    (∃ s2, cancel_post store pid now = Except.ok s2 ∧
      ∀ q' ∈ s2, q'.id = pid → q'.is_canceled = true) ∧
    (∃ s3, schedule_post store pid (some tnew) now = Except.ok s3 ∧
      ∀ q' ∈ s3, q'.id = pid →
        q'.scheduled_time = some tnew ∧ q'.is_draft = false) := by
  have hupd : update_post store pid body now =
      Except.ok (updateById store pid (fun q =>
        { q with
          content := some (orElseStr body.content "")
          image_url := some (orElseStr body.image_url "")
          scheduled_time := body.scheduled_time
          updated_at := now
          publish_to_twitter := body.publish_to_twitter
          publish_to_instagram := body.publish_to_instagram
          publish_to_facebook := body.publish_to_facebook
          publish_to_pinterest := body.publish_to_pinterest })) := by
    simp only [update_post, hfind]
  have hcan2 : cancel_post store pid now =
      Except.ok (updateById store pid (fun q =>
        { q with is_canceled := true, updated_at := now })) := by
    simp only [cancel_post, hfind]
  have hsch : schedule_post store pid (some tnew) now =
      Except.ok (updateById store pid (fun q =>
        { q with scheduled_time := some tnew, is_draft := false, updated_at := now })) := by
    simp only [schedule_post, hfind]
    rw [if_neg (not_le.mpr hfut)]
  refine ⟨⟨_, hupd, ?_⟩, ⟨_, hcan2, ?_⟩, ⟨_, hsch, ?_⟩⟩
  · intro q' hq' hid
    obtain ⟨q, _, hq'eq⟩ := mem_updateById hq'
    by_cases hqid : q.id = pid
    · rw [if_pos hqid] at hq'eq
      subst hq'eq
      exact ⟨rfl, rfl, rfl, rfl, rfl, rfl, rfl⟩
    · rw [if_neg hqid] at hq'eq
      subst hq'eq
      exact absurd hid hqid
  · intro q' hq' hid
    obtain ⟨q, _, hq'eq⟩ := mem_updateById hq'
    by_cases hqid : q.id = pid
    · rw [if_pos hqid] at hq'eq
      subst hq'eq
      rfl
    · rw [if_neg hqid] at hq'eq
      subst hq'eq
      exact absurd hid hqid
  · intro q' hq' hid
    obtain ⟨q, _, hq'eq⟩ := mem_updateById hq'
    by_cases hqid : q.id = pid
    · rw [if_pos hqid] at hq'eq
      subst hq'eq
      exact ⟨rfl, rfl⟩
    · rw [if_neg hqid] at hq'eq
      subst hq'eq
      exact absurd hid hqid

/-- C8 amended witness: the concrete published post of the counterexample
is mutable through all three operations. -/
theorem C8_published_posts_mutable_witness :
    (∃ s1, update_post [c8Post] 1 c8Body 99 = Except.ok s1 ∧
      ∀ q' ∈ s1, q'.id = 1 →
        q'.content = some (orElseStr c8Body.content "") ∧
        q'.image_url = some (orElseStr c8Body.image_url "") ∧
        q'.scheduled_time = c8Body.scheduled_time ∧
        q'.publish_to_twitter = c8Body.publish_to_twitter ∧
        q'.publish_to_instagram = c8Body.publish_to_instagram ∧
        q'.publish_to_facebook = c8Body.publish_to_facebook ∧
        q'.publish_to_pinterest = c8Body.publish_to_pinterest) ∧
    (∃ s2, cancel_post [c8Post] 1 99 = Except.ok s2 ∧
      ∀ q' ∈ s2, q'.id = 1 → q'.is_canceled = true) ∧
    (∃ s3, schedule_post [c8Post] 1 (some 150) 99 = Except.ok s3 ∧
      ∀ q' ∈ s3, q'.id = 1 →
        q'.scheduled_time = some 150 ∧ q'.is_draft = false) :=
  C8_published_posts_mutable [c8Post] 1 c8Body 99 150 c8Post rfl rfl (by decide)

/-- C9: creating a scheduled post fails with a 400 validation error when
scheduled_time is absent or not strictly in the future (no row inserted on
the failure paths, which raise before the insert); with a strictly future
time it succeeds, appends exactly one non-draft row, and the read-back
scheduled_time denotes the submitted instant. -/
theorem C9_create_validation (store : Store) (nextId : Nat) (gen : String)
    (body : PostCreate) (now : Int) :
    (body.scheduled_time = none →
      create_scheduled_post store nextId gen body now =
        Except.error ⟨400, "Scheduled time is required"⟩) ∧
    (∀ t, body.scheduled_time = some t → t ≤ now →
      create_scheduled_post store nextId gen body now =
        Except.error ⟨400, "Scheduled time must be in the future (CST)"⟩) ∧
    (∀ t, body.scheduled_time = some t → now < t →
      ∃ p, create_scheduled_post store nextId gen body now =
          Except.ok (store ++ [p],
            { p with scheduled_time := some (to_cst p.scheduled_time now) }) ∧
        p.scheduled_time = some t ∧ to_cst p.scheduled_time now = t ∧
        p.is_draft = false ∧ p.is_published = false ∧ p.id = nextId) := by
  refine ⟨?_, ?_, ?_⟩
  · intro h
    simp only [create_scheduled_post, h]
  · intro t ht hle
    simp only [create_scheduled_post, ht]
    rw [if_pos hle]
  · intro t ht hfut
    refine ⟨{ id := nextId
              content := some (orElseStr body.content gen)
              image_url := body.image_url
              scheduled_time := some t
              is_published := false
              is_canceled := false
              is_draft := false
              created_at := now
              updated_at := now
              engagement_score := 0
              publish_to_twitter := body.publish_to_twitter
              publish_to_instagram := body.publish_to_instagram
              publish_to_facebook := body.publish_to_facebook
              publish_to_pinterest := body.publish_to_pinterest
              twitter_post_id := none
              instagram_post_id := none
              facebook_post_id := none
              pinterest_post_id := none }, ?_, rfl, rfl, rfl, rfl, rfl⟩
    simp only [create_scheduled_post, ht]
    rw [if_neg (not_le.mpr hfut)]

/-- C9 witness: the three validation outcomes at concrete inputs (now 10,
past time 3, future time 20). -/
theorem C9_create_validation_witness :
    (create_scheduled_post [] 1 "gen" c9BodyNone 10 =
      Except.error ⟨400, "Scheduled time is required"⟩) ∧
    (create_scheduled_post [] 1 "gen" c9BodyPast 10 =
      Except.error ⟨400, "Scheduled time must be in the future (CST)"⟩) ∧
    (∃ p, create_scheduled_post [] 1 "gen" c9BodyFut 10 =
        Except.ok ([] ++ [p],
          { p with scheduled_time := some (to_cst p.scheduled_time 10) }) ∧
      p.scheduled_time = some 20 ∧ to_cst p.scheduled_time 10 = 20 ∧
      p.is_draft = false ∧ p.is_published = false ∧ p.id = 1) :=
  ⟨(C9_create_validation [] 1 "gen" c9BodyNone 10).1 rfl,
   (C9_create_validation [] 1 "gen" c9BodyPast 10).2.1 3 rfl (by decide),
   (C9_create_validation [] 1 "gen" c9BodyFut 10).2.2 20 rfl (by decide)⟩

/-- C10: canceling then uncanceling an existing post leaves the targeted
row with is_canceled clear and every other listed field — content, image,
schedule, targets, draft and publish flags, per-platform ids — exactly as
before the cancel; rows with other ids are untouched. -/
theorem C10_cancel_uncancel_frame (store : Store) (pid : Nat) (now1 now2 : Int)
    (p : Post) (hfind : findPost store pid = some p) :
    ∃ s1 s2, cancel_post store pid now1 = Except.ok s1 ∧
      uncancel_post s1 pid now2 = Except.ok s2 ∧
      ∀ q' ∈ s2, ∃ q, q ∈ store ∧ q'.id = q.id ∧
        q'.is_canceled = (if q.id = pid then false else q.is_canceled) ∧
        q'.content = q.content ∧ q'.image_url = q.image_url ∧
        q'.scheduled_time = q.scheduled_time ∧
        q'.is_draft = q.is_draft ∧ q'.is_published = q.is_published ∧
        q'.publish_to_twitter = q.publish_to_twitter ∧
        q'.publish_to_instagram = q.publish_to_instagram ∧
        q'.publish_to_facebook = q.publish_to_facebook ∧
        q'.publish_to_pinterest = q.publish_to_pinterest ∧
        q'.twitter_post_id = q.twitter_post_id ∧
        q'.instagram_post_id = q.instagram_post_id ∧
        q'.facebook_post_id = q.facebook_post_id ∧
        q'.pinterest_post_id = q.pinterest_post_id := by
  have hcanc : cancel_post store pid now1 =
      Except.ok (updateById store pid (fun q =>
        { q with is_canceled := true, updated_at := now1 })) := by
    simp only [cancel_post, hfind]
  have hfind2 : findPost (updateById store pid (fun q =>
      { q with is_canceled := true, updated_at := now1 })) pid =
      some { p with is_canceled := true, updated_at := now1 } := by
    rw [findPost_updateById store pid
      (fun q => { q with is_canceled := true, updated_at := now1 }) (fun q => rfl), hfind]
    rfl
  have hunc : uncancel_post (updateById store pid (fun q =>
        { q with is_canceled := true, updated_at := now1 })) pid now2 =
      Except.ok (updateById (updateById store pid (fun q =>
          { q with is_canceled := true, updated_at := now1 })) pid (fun q =>
        { q with is_canceled := false, updated_at := now2 })) := by
    simp only [uncancel_post, hfind2]
  refine ⟨_, _, hcanc, hunc, ?_⟩
  intro q' hq'
  obtain ⟨q1, hq1, hq'eq⟩ := mem_updateById hq'
  obtain ⟨q, hq, hq1eq⟩ := mem_updateById hq1
  refine ⟨q, hq, ?_⟩
  by_cases hqid : q.id = pid
  · rw [if_pos hqid] at hq1eq
    subst hq1eq
    rw [if_pos hqid] at hq'eq ⊢
    subst hq'eq
    exact ⟨rfl, rfl, rfl, rfl, rfl, rfl, rfl, rfl, rfl, rfl, rfl, rfl, rfl, rfl, rfl⟩
  · rw [if_neg hqid] at hq1eq
    subst hq1eq
    rw [if_neg hqid] at hq'eq ⊢
    subst hq'eq
    exact ⟨rfl, rfl, rfl, rfl, rfl, rfl, rfl, rfl, rfl, rfl, rfl, rfl, rfl, rfl, rfl⟩

/-- C10 witness: cancel then uncancel on a concrete one-post store. -/
theorem C10_cancel_uncancel_frame_witness :
    ∃ s1 s2, cancel_post [egDuePost] 1 7 = Except.ok s1 ∧
      uncancel_post s1 1 8 = Except.ok s2 ∧
      ∀ q' ∈ s2, ∃ q, q ∈ [egDuePost] ∧ q'.id = q.id ∧
        q'.is_canceled = (if q.id = 1 then false else q.is_canceled) ∧
        q'.content = q.content ∧ q'.image_url = q.image_url ∧
        q'.scheduled_time = q.scheduled_time ∧
        q'.is_draft = q.is_draft ∧ q'.is_published = q.is_published ∧
        q'.publish_to_twitter = q.publish_to_twitter ∧
        q'.publish_to_instagram = q.publish_to_instagram ∧
        q'.publish_to_facebook = q.publish_to_facebook ∧
        q'.publish_to_pinterest = q.publish_to_pinterest ∧
        q'.twitter_post_id = q.twitter_post_id ∧
        q'.instagram_post_id = q.instagram_post_id ∧
        q'.facebook_post_id = q.facebook_post_id ∧
        q'.pinterest_post_id = q.pinterest_post_id :=
  C10_cancel_uncancel_frame [egDuePost] 1 7 8 egDuePost rfl

end Forkpost
